import Mathlib

/-!
Shallow embedding of the candlestick pattern-recognition core of the
repository (src/backend/algorithms/pattern_recognition/candlestick.py),
together with the primitive predicate layer it imports from the tools
module. The tools module itself is not part of the available sources, so
each primitive is modelled from the specification, as marked in its doc
comment. Prices are rationals; a series is a list of bars; an index is an
integer, with every out-of-range access yielding none.
-/

namespace Candlestick

/-- One OHLC price bar, with the field names used by the data frame. -/
structure Bar where
  Open : ℚ
  High : ℚ
  Low : ℚ
  Close : ℚ
deriving DecidableEq

/-- Bounds-checked access to the bar at an integer index of the series. -/
def getBar (data : List Bar) (i : ℤ) : Option Bar :=
  if 0 ≤ i then data[i.toNat]? else none

/-- Modelled from the spec: the missing tools primitive is_black_candle.
True iff the close of bar i is strictly below its open (bearish bar);
false when the index is out of range. -/
def is_black_candle (data : List Bar) (i : ℤ) : Bool :=
  match getBar data i with
  | some b => decide (b.Close < b.Open)
  | none => false

/-- Modelled from the spec: the missing tools primitive is_white_candle.
True iff the close of bar i is strictly above its open (bullish bar);
false when the index is out of range. -/
def is_white_candle (data : List Bar) (i : ℤ) : Bool :=
  match getBar data i with
  | some b => decide (b.Open < b.Close)
  | none => false

/-- Comparison of one named field of bar i with one named field of bar j,
as written inline with iloc in the detectors: field f of bar i strictly
below field g of bar j, false when either bar is missing. -/
def fieldLt (data : List Bar) (i : ℤ) (f : Bar → ℚ) (j : ℤ) (g : Bar → ℚ) : Bool :=
  match getBar data i, getBar data j with
  | some bi, some bj => decide (f bi < g bj)
  | _, _ => false

/-- Field f of bar i strictly above field g of bar j, false when either
bar is missing. -/
def fieldGt (data : List Bar) (i : ℤ) (f : Bar → ℚ) (j : ℤ) (g : Bar → ℚ) : Bool :=
  match getBar data i, getBar data j with
  | some bi, some bj => decide (g bj < f bi)
  | _, _ => false

/-- Field f of bar i equal to field g of bar j, false when either bar is
missing. -/
def fieldEq (data : List Bar) (i : ℤ) (f : Bar → ℚ) (j : ℤ) (g : Bar → ℚ) : Bool :=
  match getBar data i, getBar data j with
  | some bi, some bj => decide (f bi = g bj)
  | _, _ => false

/-- Modelled from the spec: the missing tools primitive is_lower_lows.
Walking from starting_index to ending_index inclusive, each low must be
strictly below the low of the preceding bar; a zero-length window is
vacuously true, and a comparison involving a missing bar is false. -/
def is_lower_lows (data : List Bar) (starting_index ending_index : ℤ) : Bool :=
  (List.range (ending_index - starting_index).toNat).all fun k =>
    fieldLt data (starting_index + k + 1) Bar.Low (starting_index + k) Bar.Low

/-- Modelled from the spec: the missing tools primitive is_gap.
True iff the range of bar i does not overlap the range of bar i - 1,
in either direction; false when either bar is missing. -/
def is_gap (data : List Bar) (i : ℤ) : Bool :=
  match getBar data i, getBar data (i - 1) with
  | some b, some p => decide (b.High < p.Low) || decide (p.High < b.Low)
  | _, _ => false

/-- Modelled from the spec: the missing tools primitive is_top.
True iff bar i holds the maximum of the named field over the trailing
window of period bars ending at i, the window being silently truncated at
the start of the series; ties count as a match; false when bar i itself
is out of range. -/
def is_top (data : List Bar) (i : ℤ) (field : Bar → ℚ) (period : ℕ) : Bool :=
  match getBar data i with
  | none => false
  | some bi =>
    (List.range period).all fun k =>
      match getBar data (i - k) with
      | some bj => decide (field bj ≤ field bi)
      | none => true

/-- The three line strike detector, transcribed from candlestick.py. -/
def three_line_strike (data : List Bar) (index : ℤ) : Bool :=
  if index < 3 then false
  else
    is_lower_lows data (index - 3) index
      && is_black_candle data (index - 3)
      && is_black_candle data (index - 2)
      && is_black_candle data (index - 1)
      && is_white_candle data index
      && fieldGt data (index - 1) Bar.Close index Bar.Open
      && fieldGt data index Bar.Close (index - 3) Bar.High
      && fieldEq data index Bar.Open index Bar.Low

/-- The simplified three line strike detector, transcribed from
candlestick.py. -/
def three_line_strike_simplified (data : List Bar) (index : ℤ) : Bool :=
  if index < 3 then false
  else
    is_lower_lows data (index - 3) index
      && is_black_candle data (index - 3)
      && is_black_candle data (index - 2)
      && is_black_candle data (index - 1)
      && is_white_candle data index
      && fieldGt data index Bar.Close (index - 3) Bar.High

/-- The two black gapping detector, transcribed from candlestick.py. -/
def two_black_gapping (data : List Bar) (index : ℤ) : Bool :=
  if index < 3 then false
  else
    is_top data (index - 3) Bar.Close 7
      && is_black_candle data (index - 2)
      && is_black_candle data (index - 1)
      && is_black_candle data index
      && is_gap data (index - 1)
      && is_lower_lows data (index - 1) index

/-- The simplified two black gapping detector, transcribed from
candlestick.py. -/
def two_black_gapping_simplified (data : List Bar) (index : ℤ) : Bool :=
  if index < 3 then false
  else
    is_top data (index - 3) Bar.Close 7
      && is_black_candle data (index - 2)
      && is_black_candle data (index - 1)
      && is_black_candle data index
      && is_lower_lows data (index - 1) index

/-- The near-high scan loop of three_black_crows: an accumulated logical
or of is_top over the indices starting_index, starting_index - 1, ...,
starting_index - high_range + 1, empty when high_range is not positive,
exactly as the range call with step -1 iterates. -/
def near_high_scan (data : List Bar) (starting_index : ℤ) (high_range : ℤ) : Bool :=
  (List.range high_range.toNat).any fun k =>
    is_top data (starting_index - k) Bar.High 5

/-- The three black crows detector, transcribed from candlestick.py;
note that it has no minimum-index guard of its own. -/
def three_black_crows (data : List Bar) (index : ℤ) (high_range : ℤ) : Bool :=
  near_high_scan data (index - 3) high_range
    && is_black_candle data (index - 2)
    && is_black_candle data (index - 1)
    && is_black_candle data index
    && is_lower_lows data (index - 1) index

/-- Concrete series matching the strict three line strike at index 3. -/
def exStrike : List Bar :=
  [⟨24, 24, 18, 20⟩, ⟨22, 22, 16, 19⟩, ⟨20, 20, 14, 16⟩, ⟨13, 26, 13, 26⟩]

/-- Same series except that the open of the last bar is no longer its
low; every other strict condition still holds. -/
def exNoOpenLow : List Bar :=
  [⟨24, 24, 18, 20⟩, ⟨22, 22, 16, 19⟩, ⟨20, 20, 14, 16⟩, ⟨13, 26, 12, 26⟩]

/-- Series whose first three bars post strictly lower lows and that meets
every strict three line strike condition at index 3 except that the low
of bar 3 is not below the low of bar 2. -/
def exFirstThree : List Bar :=
  [⟨24, 24, 18, 21⟩, ⟨22, 22, 16, 19⟩, ⟨20, 20, 14, 16⟩, ⟨15, 26, 15, 26⟩]

/-- Series matching two black gapping at index 3, with a genuine gap down
between bars 1 and 2. -/
def exGap : List Bar :=
  [⟨20, 22, 19, 21⟩, ⟨21, 22, 18, 19⟩, ⟨17, 17, 15, 16⟩, ⟨16, 16, 13, 14⟩]

/-- Same as exGap except that the range of bar 2 overlaps the range of
bar 1, so there is no gap. -/
def exNoGap : List Bar :=
  [⟨20, 22, 19, 21⟩, ⟨21, 22, 18, 19⟩, ⟨19, 19, 15, 16⟩, ⟨16, 16, 13, 14⟩]

/-- Four-bar series matching three black crows at index 3: bar 0 is
trivially a local high maximum because the five-bar window is truncated
to it, while no bar strictly before bar 0 exists. -/
def exCrows : List Bar :=
  [⟨20, 22, 19, 21⟩, ⟨21, 21, 18, 19⟩, ⟨19, 19, 16, 17⟩, ⟨17, 17, 14, 15⟩]

/-- The strict strike series with bar 2 turned into a doji. -/
def exDoji : List Bar :=
  [⟨24, 24, 18, 20⟩, ⟨22, 22, 16, 19⟩, ⟨20, 20, 14, 20⟩, ⟨13, 26, 13, 26⟩]

/-- Three bars with strictly decreasing lows. -/
def exLows : List Bar :=
  [⟨20, 21, 9, 19⟩, ⟨20, 21, 8, 19⟩, ⟨20, 21, 7, 19⟩]

/-- A negative index never yields a bar. -/
theorem getBar_neg (data : List Bar) (i : ℤ) (h : i < 0) : getBar data i = none := by
  rw [getBar, if_neg (by omega)]

/-- An index holding a bar is nonnegative. -/
theorem getBar_nonneg (data : List Bar) (i : ℤ) (b : Bar) (h : getBar data i = some b) :
    0 ≤ i := by
  by_contra hneg
  rw [getBar_neg data i (by omega)] at h
  exact Option.noConfusion h

/-- An index holding a bar is below the length of the series. -/
theorem getBar_lt_length (data : List Bar) (i : ℤ) (b : Bar)
    (h : getBar data i = some b) : i.toNat < data.length := by
  by_cases h0 : 0 ≤ i
  · rw [getBar, if_pos h0] at h
    exact (List.getElem?_eq_some.mp h).1
  · rw [getBar, if_neg h0] at h
    exact Option.noConfusion h

/-- Updating the series at the position of an existing bar is seen by
getBar at that index. -/
theorem getBar_set_self (data : List Bar) (i : ℤ) (b c : Bar)
    (h : getBar data i = some b) :
    getBar (data.set i.toNat c) i = some c := by
  have h0 := getBar_nonneg data i b h
  have hl := getBar_lt_length data i b h
  rw [getBar, if_pos h0, List.getElem?_set_self hl]

/-- Updating the series at one position leaves getBar unchanged at every
index with a different truncation. -/
theorem getBar_set_ne (data : List Bar) (n : ℕ) (c : Bar) (i : ℤ)
    (h : i.toNat ≠ n) :
    getBar (data.set n c) i = getBar data i := by
  by_cases h0 : 0 ≤ i
  · rw [getBar, if_pos h0, getBar, if_pos h0, List.getElem?_set_ne (Ne.symm h)]
  · rw [getBar, if_neg h0, getBar, if_neg h0]

/-- is_top is false at every negative index. -/
theorem is_top_neg (data : List Bar) (i : ℤ) (f : Bar → ℚ) (p : ℕ) (h : i < 0) :
    is_top data i f p = false := by
  rw [is_top, getBar_neg data i h]

/-- Unrolling of the lower-lows walk over a one-step window. -/
theorem lower_lows_window1 (data : List Bar) (i : ℤ) :
    is_lower_lows data (i - 1) i = fieldLt data i Bar.Low (i - 1) Bar.Low := by
  rw [is_lower_lows, show (i - (i - 1)).toNat = 1 from by omega]
  rw [show List.range 1 = [0] from rfl]
  simp only [List.all_cons, List.all_nil, Bool.and_true, Nat.cast_zero]
  rw [show i - 1 + 0 + 1 = i from by ring, show i - 1 + (0 : ℤ) = i - 1 from by ring]

/-- Unrolling of the lower-lows walk over the three-step window used by
the strike detectors. -/
theorem lower_lows_window3 (data : List Bar) (i : ℤ) :
    is_lower_lows data (i - 3) i =
      (fieldLt data (i - 2) Bar.Low (i - 3) Bar.Low
        && fieldLt data (i - 1) Bar.Low (i - 2) Bar.Low
        && fieldLt data i Bar.Low (i - 1) Bar.Low) := by
  rw [is_lower_lows, show (i - (i - 3)).toNat = 3 from by omega]
  rw [show List.range 3 = [0, 1, 2] from rfl]
  simp only [List.all_cons, List.all_nil, Bool.and_true, Nat.cast_zero, Nat.cast_one,
    Nat.cast_ofNat]
  rw [show i - 3 + 0 + 1 = i - 2 from by ring, show i - 3 + (0 : ℤ) = i - 3 from by ring,
    show i - 3 + 1 + 1 = i - 1 from by ring, show i - 3 + (1 : ℤ) = i - 2 from by ring,
    show i - 3 + 2 + 1 = i from by ring, show i - 3 + (2 : ℤ) = i - 1 from by ring]
  rw [Bool.and_assoc]

/-- Unrolling of the near-high scan at the default range of five bars. -/
theorem near_high_scan_five (data : List Bar) (s : ℤ) :
    near_high_scan data s 5 =
      (is_top data s Bar.High 5
        || (is_top data (s - 1) Bar.High 5
        || (is_top data (s - 2) Bar.High 5
        || (is_top data (s - 3) Bar.High 5
        || is_top data (s - 4) Bar.High 5)))) := by
  rw [near_high_scan, show ((5 : ℤ)).toNat = 5 from rfl]
  rw [show List.range 5 = [0, 1, 2, 3, 4] from rfl]
  simp only [List.any_cons, List.any_nil, Bool.or_false, Nat.cast_zero, Nat.cast_one,
    Nat.cast_ofNat, sub_zero]

/-- Reordering of the strict strike conjunction into the simplified
conjunction and the two extra comparisons. -/
theorem and_shuffle8 (a b c d e f g h : Bool) :
    (a && b && c && d && e && f && g && h) = ((a && b && c && d && e && g) && f && h) := by
  cases f <;> cases g <;> simp [Bool.and_assoc]

/-- Reordering of the gapping conjunction into the simplified conjunction
and the gap check. -/
theorem and_shuffle6 (a b c d e f : Bool) :
    (a && b && c && d && e && f) = ((a && b && c && d && f) && e) := by
  cases e <;> simp [Bool.and_assoc]

/-- Reordering of the unrolled strict strike conjunction into the order
used by the specification table. -/
theorem and_shuffle10 (a b c d e f g h i j : Bool) :
    ((a && b && c) && d && e && f && g && h && i && j)
      = (a && b && c && d && e && f && g && i && h && j) := by
  cases h <;> cases i <;> simp [Bool.and_assoc]

/-- The three line strike conditions exactly as the claim words them:
lower lows only across the first three bars of the window. -/
def three_line_strike_claim_spec (data : List Bar) (index : ℤ) : Bool :=
  fieldLt data (index - 2) Bar.Low (index - 3) Bar.Low
    && fieldLt data (index - 1) Bar.Low (index - 2) Bar.Low
    && is_black_candle data (index - 3)
    && is_black_candle data (index - 2)
    && is_black_candle data (index - 1)
    && is_white_candle data index
    && fieldGt data index Bar.Close (index - 3) Bar.High
    && fieldGt data (index - 1) Bar.Close index Bar.Open
    && fieldEq data index Bar.Open index Bar.Low

/-- The three line strike conditions with the lower-lows requirement
amended to span the whole four-bar window, as the code enforces. -/
def three_line_strike_full_spec (data : List Bar) (index : ℤ) : Bool :=
  fieldLt data (index - 2) Bar.Low (index - 3) Bar.Low
    && fieldLt data (index - 1) Bar.Low (index - 2) Bar.Low
    && fieldLt data index Bar.Low (index - 1) Bar.Low
    && is_black_candle data (index - 3)
    && is_black_candle data (index - 2)
    && is_black_candle data (index - 1)
    && is_white_candle data index
    && fieldGt data index Bar.Close (index - 3) Bar.High
    && fieldGt data (index - 1) Bar.Close index Bar.Open
    && fieldEq data index Bar.Open index Bar.Low

/-- The three black crows conditions exactly as the claim words them:
the near-high search ranges over the five bars strictly before
index - 3. -/
def three_black_crows_claim_spec (data : List Bar) (index : ℤ) : Bool :=
  (is_top data (index - 4) Bar.High 5
    || (is_top data (index - 5) Bar.High 5
    || (is_top data (index - 6) Bar.High 5
    || (is_top data (index - 7) Bar.High 5
    || is_top data (index - 8) Bar.High 5))))
    && is_black_candle data (index - 2)
    && is_black_candle data (index - 1)
    && is_black_candle data index
    && fieldLt data index Bar.Low (index - 1) Bar.Low

/-- The three black crows conditions with the near-high window amended to
end at index - 3 inclusive, as the loop in the code iterates. -/
def three_black_crows_claim_amended (data : List Bar) (index : ℤ) : Bool :=
  (is_top data (index - 3) Bar.High 5
    || (is_top data (index - 4) Bar.High 5
    || (is_top data (index - 5) Bar.High 5
    || (is_top data (index - 6) Bar.High 5
    || is_top data (index - 7) Bar.High 5))))
    && is_black_candle data (index - 2)
    && is_black_candle data (index - 1)
    && is_black_candle data index
    && fieldLt data index Bar.Low (index - 1) Bar.Low

/-- C1: for every index smaller than three, every one of the five
detectors returns false regardless of bar content; every detector of the
embedding is a total function, so no call can raise. -/
theorem detectors_false_below_three (data : List Bar) (index high_range : ℤ)
    (h : index < 3) :
    three_line_strike data index = false
      ∧ three_line_strike_simplified data index = false
      ∧ two_black_gapping data index = false
      ∧ two_black_gapping_simplified data index = false
      ∧ three_black_crows data index high_range = false := by
  have hscan : near_high_scan data (index - 3) high_range = false := by
    rw [near_high_scan]
    refine List.any_eq_false.mpr ?_
    intro k _
    rw [is_top_neg data (index - 3 - (k : ℤ)) Bar.High 5 (by omega)]
    decide
  refine ⟨?_, ?_, ?_, ?_, ?_⟩
  · simp only [three_line_strike, if_pos h]
  · simp only [three_line_strike_simplified, if_pos h]
  · simp only [two_black_gapping, if_pos h]
  · simp only [two_black_gapping_simplified, if_pos h]
  · simp only [three_black_crows, hscan, Bool.false_and]

/-- Witness for C1 at the empty series and index zero. -/
theorem detectors_false_below_three_witness :
    three_line_strike ([] : List Bar) 0 = false
      ∧ three_line_strike_simplified ([] : List Bar) 0 = false
      ∧ two_black_gapping ([] : List Bar) 0 = false
      ∧ two_black_gapping_simplified ([] : List Bar) 0 = false
      ∧ three_black_crows ([] : List Bar) 0 5 = false :=
  detectors_false_below_three [] 0 5 (by decide)

/-- C4: the strict three line strike equals the simplified detector
conjoined with the two extra comparisons, so a strict match is always a
simplified match, and a series failing only the open-equals-low equality
separates the two detectors. -/
theorem three_line_strike_refines_simplified :
    (∀ (data : List Bar) (index : ℤ),
      three_line_strike data index =
        (three_line_strike_simplified data index
          && fieldGt data (index - 1) Bar.Close index Bar.Open
          && fieldEq data index Bar.Open index Bar.Low))
    ∧ (∀ (data : List Bar) (index : ℤ),
        three_line_strike data index = true →
        three_line_strike_simplified data index = true)
    ∧ three_line_strike_simplified exNoOpenLow 3 = true
    ∧ three_line_strike exNoOpenLow 3 = false := by
  have key : ∀ (data : List Bar) (index : ℤ),
      three_line_strike data index =
        (three_line_strike_simplified data index
          && fieldGt data (index - 1) Bar.Close index Bar.Open
          && fieldEq data index Bar.Open index Bar.Low) := by
    intro data index
    by_cases h : index < 3
    · simp only [three_line_strike, three_line_strike_simplified, if_pos h, Bool.false_and]
    · simp only [three_line_strike, three_line_strike_simplified, if_neg h]
      exact and_shuffle8 _ _ _ _ _ _ _ _
  refine ⟨key, ?_, by decide, by decide⟩
  intro data index h
  rw [key data index] at h
  simp only [Bool.and_eq_true] at h
  exact h.1.1

/-- Witness for C4: a strict match at a concrete series yields a
simplified match. -/
theorem three_line_strike_refines_simplified_witness :
    three_line_strike_simplified exStrike 3 = true :=
  three_line_strike_refines_simplified.2.1 exStrike 3 (by decide)

/-- C5: the strict two black gapping equals the simplified detector
conjoined with the gap check at index - 1, so a strict match is always a
simplified match, and a series failing only the gap separates the two
detectors. -/
theorem two_black_gapping_refines_simplified :
    (∀ (data : List Bar) (index : ℤ),
      two_black_gapping data index =
        (two_black_gapping_simplified data index && is_gap data (index - 1)))
    ∧ (∀ (data : List Bar) (index : ℤ),
        two_black_gapping data index = true →
        two_black_gapping_simplified data index = true)
    ∧ two_black_gapping exNoGap 3 = false
    ∧ two_black_gapping_simplified exNoGap 3 = true := by
  have key : ∀ (data : List Bar) (index : ℤ),
      two_black_gapping data index =
        (two_black_gapping_simplified data index && is_gap data (index - 1)) := by
    intro data index
    by_cases h : index < 3
    · simp only [two_black_gapping, two_black_gapping_simplified, if_pos h, Bool.false_and]
    · simp only [two_black_gapping, two_black_gapping_simplified, if_neg h]
      exact and_shuffle6 _ _ _ _ _ _
  refine ⟨key, ?_, by decide, by decide⟩
  intro data index h
  rw [key data index] at h
  simp only [Bool.and_eq_true] at h
  exact h.1

/-- Witness for C5: a strict match at a concrete series yields a
simplified match. -/
theorem two_black_gapping_refines_simplified_witness :
    two_black_gapping_simplified exGap 3 = true :=
  two_black_gapping_refines_simplified.2.1 exGap 3 (by decide)

/-- C8: every detector is deterministic: two calls with identical
arguments return identical results. Each detector of the embedding is a
pure function of the series and its integer arguments, so freedom from
side effects and retained state holds by construction. -/
theorem detectors_deterministic (data : List Bar) (index high_range : ℤ) :
    three_line_strike data index = three_line_strike data index
      ∧ three_line_strike_simplified data index = three_line_strike_simplified data index
      ∧ two_black_gapping data index = two_black_gapping data index
      ∧ two_black_gapping_simplified data index = two_black_gapping_simplified data index
      ∧ three_black_crows data index high_range = three_black_crows data index high_range :=
  ⟨rfl, rfl, rfl, rfl, rfl⟩

/-- C2 counterexample: a concrete series meets every condition the claim
lists, with lower lows only across the first three bars, while the
detector returns false because the low of the final bar is not below the
low of its predecessor. -/
theorem three_line_strike_claim_false :
    ¬ (three_line_strike exFirstThree 3 = true ↔
        three_line_strike_claim_spec exFirstThree 3 = true) := by decide

/-- C2 amended: for every index of at least three the strict detector
matches iff the full conjunction holds, with the lower-lows requirement
spanning the whole four-bar window from index - 3 to index. -/
theorem three_line_strike_full_window (data : List Bar) (index : ℤ)
    (h : 3 ≤ index) :
    three_line_strike data index = true ↔
      three_line_strike_full_spec data index = true := by
  have hn : ¬ index < 3 := by omega
  have key : three_line_strike data index = three_line_strike_full_spec data index := by
    simp only [three_line_strike, three_line_strike_full_spec, if_neg hn,
      lower_lows_window3]
    exact and_shuffle10 _ _ _ _ _ _ _ _ _ _
  rw [key]

/-- Witness for the amended C2 at a concrete matching series. -/
theorem three_line_strike_full_window_witness :
    three_line_strike_full_spec exStrike 3 = true :=
  (three_line_strike_full_window exStrike 3 (by decide)).mp (by decide)

/-- C3 counterexample: a four-bar series makes the detector true because
bar 0, at index - 3, is a truncated-window high maximum, while no bar
strictly before index - 3 exists, so the claimed condition is false. -/
theorem three_black_crows_claim_false :
    ¬ (three_black_crows exCrows 3 5 = true ↔
        three_black_crows_claim_spec exCrows 3 = true) := by decide

/-- C3 amended: with the default range of five, the detector matches iff
some bar of the trailing window of five bars ending at index - 3
inclusive is a local high maximum over a five-bar window, the last three
bars are bearish, and the final bar posts a lower low. -/
theorem three_black_crows_window_characterization (data : List Bar) (index : ℤ) :
    three_black_crows data index 5 = true ↔
      three_black_crows_claim_amended data index = true := by
  have key : three_black_crows data index 5 =
      three_black_crows_claim_amended data index := by
    simp only [three_black_crows, three_black_crows_claim_amended, near_high_scan_five,
      lower_lows_window1]
    rw [show index - 3 - 1 = index - 4 from by ring,
      show index - 3 - 2 = index - 5 from by ring,
      show index - 3 - 3 = index - 6 from by ring,
      show index - 3 - 4 = index - 7 from by ring]
  rw [key]

/-- C9: a strict or simplified three line strike match at an index of at
least three forces the low of the final bullish bar below the low of its
predecessor, because the lower-lows walk spans the whole four-bar
window. -/
theorem strike_implies_final_lower_low (data : List Bar) (index : ℤ)
    (h3 : 3 ≤ index)
    (hd : three_line_strike data index = true
      ∨ three_line_strike_simplified data index = true) :
    fieldLt data index Bar.Low (index - 1) Bar.Low = true := by
  have hn : ¬ index < 3 := by omega
  have hll : is_lower_lows data (index - 3) index = true := by
    rcases hd with hd | hd
    · simp only [three_line_strike, if_neg hn, Bool.and_eq_true] at hd
      exact hd.1.1.1.1.1.1.1
    · simp only [three_line_strike_simplified, if_neg hn, Bool.and_eq_true] at hd
      exact hd.1.1.1.1.1
  rw [lower_lows_window3] at hll
  simp only [Bool.and_eq_true] at hll
  exact hll.2

/-- Witness for C9 at a concrete strict match. -/
theorem strike_implies_final_lower_low_witness :
    fieldLt exStrike 3 Bar.Low (3 - 1) Bar.Low = true :=
  strike_implies_final_lower_low exStrike 3 (by decide) (Or.inl (by decide))

/-- C10: a non-positive range makes the near-high loop run zero times, so
three black crows is false; for a positive range the scan is true exactly
when some index between index - 3 - high_range + 1 and index - 3
inclusive is a local high maximum, so the window includes index - 3. -/
theorem crows_scan_window :
    (∀ (data : List Bar) (index high_range : ℤ), high_range ≤ 0 →
      three_black_crows data index high_range = false)
    ∧ (∀ (data : List Bar) (index high_range : ℤ), 1 ≤ high_range →
        (near_high_scan data (index - 3) high_range = true ↔
          ∃ j : ℤ, index - 3 - high_range + 1 ≤ j ∧ j ≤ index - 3
            ∧ is_top data j Bar.High 5 = true)) := by
  constructor
  · intro data index hr h
    have h0 : hr.toNat = 0 := by omega
    simp only [three_black_crows, near_high_scan, h0, List.range_zero, List.any_nil,
      Bool.false_and]
  · intro data index hr hr1
    rw [near_high_scan, List.any_eq_true]
    constructor
    · rintro ⟨k, hk, htop⟩
      rw [List.mem_range] at hk
      exact ⟨index - 3 - (k : ℤ), by omega, by omega, htop⟩
    · rintro ⟨j, h1, h2, htop⟩
      refine ⟨(index - 3 - j).toNat, ?_, ?_⟩
      · rw [List.mem_range]; omega
      · rw [show index - 3 - (((index - 3 - j).toNat : ℕ) : ℤ) = j from by omega]
        exact htop

/-- Witness for C10: a zero range yields false at a concrete series, and
the positive-range characterization produces a concrete scan hit. -/
theorem crows_scan_window_witness :
    three_black_crows exCrows 3 0 = false
      ∧ (∃ j : ℤ, 3 - 3 - 5 + 1 ≤ j ∧ j ≤ 3 - 3 ∧ is_top exCrows j Bar.High 5 = true) :=
  ⟨crows_scan_window.1 exCrows 3 0 (by decide),
   (crows_scan_window.2 exCrows 3 5 (by decide)).mp (by decide)⟩

/-- C6: is_black_candle holds exactly when close is below open and
is_white_candle exactly when close is above open; a doji bar satisfies
neither, both stay total, and a doji in the slot at index - 1, which
every detector requires to be black, makes all five detectors return
false. -/
theorem candle_color_semantics :
    (∀ (data : List Bar) (i : ℤ) (b : Bar), getBar data i = some b →
      ((is_black_candle data i = true ↔ b.Close < b.Open)
        ∧ (is_white_candle data i = true ↔ b.Open < b.Close)
        ∧ (b.Close = b.Open →
            is_black_candle data i = false ∧ is_white_candle data i = false)))
    ∧ (∀ (data : List Bar) (index high_range : ℤ) (b : Bar),
        getBar data (index - 1) = some b → b.Close = b.Open →
        three_line_strike data index = false
          ∧ three_line_strike_simplified data index = false
          ∧ two_black_gapping data index = false
          ∧ two_black_gapping_simplified data index = false
          ∧ three_black_crows data index high_range = false) := by
  constructor
  · intro data i b hb
    refine ⟨?_, ?_, ?_⟩
    · rw [is_black_candle, hb]
      exact decide_eq_true_iff
    · rw [is_white_candle, hb]
      exact decide_eq_true_iff
    · intro hd
      constructor
      · rw [is_black_candle, hb]
        exact decide_eq_false (by rw [hd]; exact lt_irrefl _)
      · rw [is_white_candle, hb]
        exact decide_eq_false (by rw [hd]; exact lt_irrefl _)
  · intro data index hr b hb hd
    have hblack : is_black_candle data (index - 1) = false := by
      rw [is_black_candle, hb]
      exact decide_eq_false (by rw [hd]; exact lt_irrefl _)
    refine ⟨?_, ?_, ?_, ?_, ?_⟩
    · by_cases h : index < 3
      · simp only [three_line_strike, if_pos h]
      · simp only [three_line_strike, if_neg h, hblack, Bool.and_false, Bool.false_and]
    · by_cases h : index < 3
      · simp only [three_line_strike_simplified, if_pos h]
      · simp only [three_line_strike_simplified, if_neg h, hblack, Bool.and_false,
          Bool.false_and]
    · by_cases h : index < 3
      · simp only [two_black_gapping, if_pos h]
      · simp only [two_black_gapping, if_neg h, hblack, Bool.and_false, Bool.false_and]
    · by_cases h : index < 3
      · simp only [two_black_gapping_simplified, if_pos h]
      · simp only [two_black_gapping_simplified, if_neg h, hblack, Bool.and_false,
          Bool.false_and]
    · simp only [three_black_crows, hblack, Bool.and_false, Bool.false_and]

/-- Witness for C6: a doji at bar 2 of a series that otherwise matches
the strict strike makes the detectors return false. -/
theorem candle_color_semantics_witness :
    three_line_strike exDoji 3 = false ∧ three_black_crows exDoji 3 5 = false :=
  ⟨(candle_color_semantics.2 exDoji 3 5 ⟨20, 20, 14, 20⟩ (by decide) rfl).1,
   (candle_color_semantics.2 exDoji 3 5 ⟨20, 20, 14, 20⟩ (by decide) rfl).2.2.2.2⟩

/-- C7: the lower-lows walk holds iff every step of the window posts a
strictly lower low; a zero-length window is vacuously true; and raising
the low of one bar inside a strictly decreasing window to at least the
low of its predecessor flips the result to false. -/
theorem lower_lows_characterization :
    (∀ (data : List Bar) (s e : ℤ), s ≤ e →
      (is_lower_lows data s e = true ↔
        ∀ j : ℤ, s < j → j ≤ e → fieldLt data j Bar.Low (j - 1) Bar.Low = true))
    ∧ (∀ (data : List Bar) (s : ℤ), is_lower_lows data s s = true)
    ∧ (∀ (data : List Bar) (s e j : ℤ) (c p c' : Bar), s < j → j ≤ e →
        getBar data j = some c → getBar data (j - 1) = some p →
        is_lower_lows data s e = true →
        c'.Open = c.Open → c'.High = c.High → c'.Close = c.Close →
        p.Low ≤ c'.Low →
        is_lower_lows (data.set j.toNat c') s e = false) := by
  refine ⟨?_, ?_, ?_⟩
  · intro data s e _
    rw [is_lower_lows, List.all_eq_true]
    constructor
    · intro hall j hs he
      have hmem : (j - s - 1).toNat ∈ List.range (e - s).toNat := by
        rw [List.mem_range]; omega
      have h := hall _ hmem
      rw [show s + ((j - s - 1).toNat : ℤ) + 1 = j from by omega,
        show s + ((j - s - 1).toNat : ℤ) = j - 1 from by omega] at h
      exact h
    · intro hj k hk
      rw [List.mem_range] at hk
      have h := hj (s + (k : ℤ) + 1) (by omega) (by omega)
      rw [show s + (k : ℤ) + 1 - 1 = s + (k : ℤ) from by ring] at h
      exact h
  · intro data s
    rw [is_lower_lows, show (s - s).toNat = 0 from by omega]
    rfl
  · intro data s e j c p c' hs he hc hp _ hO hH hC hlow
    have hj1 : 0 ≤ j - 1 := getBar_nonneg data (j - 1) p hp
    rw [is_lower_lows]
    refine List.all_eq_false.mpr ⟨(j - s - 1).toNat, ?_, ?_⟩
    · rw [List.mem_range]; omega
    · rw [show s + ((j - s - 1).toNat : ℤ) + 1 = j from by omega,
        show s + ((j - s - 1).toNat : ℤ) = j - 1 from by omega]
      have h1 : getBar (data.set j.toNat c') j = some c' := getBar_set_self data j c c' hc
      have h2 : getBar (data.set j.toNat c') (j - 1) = getBar data (j - 1) :=
        getBar_set_ne data j.toNat c' (j - 1) (by omega)
      rw [fieldLt, h1, h2, hp]
      exact fun hlt => absurd (of_decide_eq_true hlt) (not_lt.mpr hlow)

/-- Witness for C7: raising the low of the last bar of a strictly
decreasing three-bar series flips the walk to false. -/
theorem lower_lows_characterization_witness :
    is_lower_lows (exLows.set (Int.toNat 2) ⟨20, 21, 10, 19⟩) 0 2 = false :=
  lower_lows_characterization.2.2 exLows 0 2 2 ⟨20, 21, 7, 19⟩ ⟨20, 21, 8, 19⟩
    ⟨20, 21, 10, 19⟩ (by decide) (by decide) (by decide) (by decide) (by decide)
    rfl rfl rfl (by decide)

example : three_line_strike exStrike 3 = true := by decide
example : three_line_strike exNoOpenLow 3 = false := by decide
example : three_line_strike_simplified exNoOpenLow 3 = true := by decide
example : three_line_strike exFirstThree 3 = false := by decide
example : two_black_gapping exGap 3 = true := by decide
example : two_black_gapping exNoGap 3 = false := by decide
example : two_black_gapping_simplified exNoGap 3 = true := by decide
example : three_black_crows exCrows 3 5 = true := by decide
example : three_black_crows exDoji 3 5 = false := by decide
example : is_lower_lows exLows 0 2 = true := by decide

end Candlestick
